import Mathlib

/-!
SIM800L driver interface (`src/app/sim800l.h`).

Verification development for the public interface of the SIM800L modem driver
of the waterpump firmware.  The first part embeds what the header declares:
the alarm count, the integer types of the arguments, and the two SMS record
structures with their C layout.
-/

namespace Sim800l

/-! ## Machine integer types used by the header -/

/-- The C type `uint8_t`: the integers 0..255. -/
abbrev uint8_t := Fin 256

/-- The C type `uint32_t`. -/
abbrev uint32_t := Fin 4294967296

/-- The C type `uint64_t`. -/
abbrev uint64_t := Fin 18446744073709551616

/-- The C type `char` as a raw byte. -/
abbrev Byte := Fin 256

/-- The C array type `char[n]`: exactly `n` bytes. -/
abbrev CharArray (n : Nat) := { l : List Byte // l.length = n }

/-! ## `#define SIM800L_ALARM_COUNT (5)` -/

/-- Number of alarm slots, `#define SIM800L_ALARM_COUNT (5)` (sim800l.h:26). -/
def SIM800L_ALARM_COUNT : Nat := 5

/-- Documented argument contract of `sim800l_delete_alarm` and
`sim800l_set_alarm` (sim800l.h:205 and :219): "alarm_index must be in range
1..5". -/
def alarm_index_in_range (alarm_index : uint8_t) : Bool :=
  decide (1 ≤ alarm_index.val) && decide (alarm_index.val ≤ 5)

/-- Every value an `uint8_t` argument can take, in increasing order. -/
def all_uint8 : List uint8_t := List.finRange 256

/-! ## The SMS record structures (sim800l.h:46-56) -/

/-- The record `struct __attribute__((packed)) sim800l_sms_header_t`
(sim800l.h:46-50). -/
structure sim800l_sms_header_t where
  time : uint64_t
  index : uint8_t
  sender : CharArray 22

/-- The record `struct sim800l_sms_t` (sim800l.h:52-56). -/
structure sim800l_sms_t where
  header : sim800l_sms_header_t
  text_length : uint8_t
  text : CharArray 256

/-- Declared element count of `char sender[22]`. -/
def SENDER_SIZE : Nat := 22

/-- Declared element count of `char text[256]`. -/
def TEXT_SIZE : Nat := 256

/-! ## C layout of the two structures -/

/-- One member of a C structure declaration: its name, the size of its type
in bytes, and the alignment its type requires. -/
structure Member where
  name : String
  size : Nat
  align : Nat
deriving DecidableEq, Repr

/-- Round the offset `off` up to the next multiple of `a`. -/
def align_up (off a : Nat) : Nat := ((off + a - 1) / a) * a

/-- Alignment a member gets inside a structure: `__attribute__((packed))`
lowers it to 1, otherwise it is the alignment of the member type. -/
def member_align (packed : Bool) (m : Member) : Nat :=
  if packed then 1 else m.align

/-- Offsets of the members, laid out in declaration order starting at `off`,
each placed at the next offset suitably aligned for it. -/
def member_offsets (packed : Bool) : Nat → List Member → List (String × Nat)
  | _, [] => []
  | off, m :: ms =>
      let at_off := align_up off (member_align packed m)
      (m.name, at_off) :: member_offsets packed (at_off + m.size) ms

/-- First offset after the last member. -/
def members_end (packed : Bool) : Nat → List Member → Nat
  | off, [] => off
  | off, m :: ms =>
      members_end packed (align_up off (member_align packed m) + m.size) ms

/-- Alignment of the structure: the largest member alignment. -/
def struct_align (packed : Bool) (ms : List Member) : Nat :=
  (ms.map (member_align packed)).foldl max 1

/-- Value of `sizeof` for the structure: the end of the last member rounded
up to the alignment of the structure. -/
def struct_size (packed : Bool) (ms : List Member) : Nat :=
  align_up (members_end packed 0 ms) (struct_align packed ms)

/-- Value of `offsetof` for the named member. -/
def offset_of (packed : Bool) (ms : List Member) (name : String) : Option Nat :=
  ((member_offsets packed 0 ms).find? (fun p => p.1 == name)).map Prod.snd

/-- Members of `struct __attribute__((packed)) sim800l_sms_header_t`:
`uint64_t time; uint8_t index; char sender[22];`. -/
def sms_header_members : List Member :=
  [ { name := "time", size := 8, align := 8 },
    { name := "index", size := 1, align := 1 },
    { name := "sender", size := 1 * SENDER_SIZE, align := 1 } ]

/-- Members of `struct sim800l_sms_t` (declared without the packed
attribute): `struct sim800l_sms_header_t header; uint8_t text_length;
char text[256];`. -/
def sms_members : List Member :=
  [ { name := "header",
      size := struct_size true sms_header_members,
      align := struct_align true sms_header_members },
    { name := "text_length", size := 1, align := 1 },
    { name := "text", size := 1 * TEXT_SIZE, align := 1 } ]

/-- Offset of a member of the header seen from the start of the whole SMS
record: the offset of `header` plus the offset inside the header. -/
def sms_header_field_offset (name : String) : Option Nat :=
  match offset_of false sms_members "header", offset_of true sms_header_members name with
  | some base, some rel => some (base + rel)
  | _, _ => none

/-! ## The driver behind the header

`sim800l.h` only declares the driver entry points; their bodies
(`sim800l.c`) are not part of the sources at hand.  The definitions of this
section follow the design document of the driver instead, and each says so.
-/

/-- A line of modem output, without its terminator. -/
abbrev Line := List Byte

/-- Carriage return, first byte of the line delimiter pair. -/
def CR : Byte := 13

/-- Line feed, second byte of the line delimiter pair. -/
def LF : Byte := 10

/-- The line delimiter pair. -/
def CRLF : List Byte := [CR, LF]

/-- Modelled from the spec: the Receive Buffer behind `sim800l_receive_cb`
(body in the missing `sim800l.c`): a bounded buffer of raw bytes whose
capacity is fixed at construction, holding the unconsumed bytes oldest
first, with the recorded buffer-overrun condition.  The cursor marking the
start of the current unterminated line is the position after the last
delimiter pair in `data`; it is determined by the contents and not stored. -/
structure ReceiveBuffer where
  capacity : Nat
  data : List Byte
  overrun : Bool
deriving DecidableEq, Repr

/-- Modelled from the spec: construction of the Receive Buffer (missing
`sim800l.c`): empty, no overrun recorded, capacity fixed. -/
def ReceiveBuffer.init (capacity : Nat) : ReceiveBuffer :=
  { capacity := capacity, data := [], overrun := false }

/-- Modelled from the spec: `push_byte(b)` of the Receive Framer (missing
`sim800l.c`): appends `b`; if the buffer is full, the oldest unconsumed
byte is evicted and a buffer-overrun condition is recorded. -/
def push_byte (rb : ReceiveBuffer) (b : Byte) : ReceiveBuffer :=
  if rb.data.length < rb.capacity then
    { rb with data := rb.data ++ [b] }
  else
    { rb with data := rb.data.tail ++ [b], overrun := true }

/-- Modelled from the spec: the search `next_line` performs (missing
`sim800l.c`): the bytes before the first delimiter pair, and the bytes
after it; nothing when no delimiter pair is present. -/
def find_line : List Byte → Option (Line × List Byte)
  | [] => none
  | [_] => none
  | a :: b :: rest =>
      if a = CR ∧ b = LF then some ([], rest)
      else match find_line (b :: rest) with
        | none => none
        | some (l, r) => some (a :: l, r)

/-- Modelled from the spec: `next_line()` of the Receive Framer (missing
`sim800l.c`): returns the oldest complete line (bytes up to, excluding, the
delimiter pair) if one exists, else none; advances the consumed cursor past
the delimiter. -/
def next_line (rb : ReceiveBuffer) : Option Line × ReceiveBuffer :=
  match find_line rb.data with
  | none => (none, rb)
  | some (l, r) => (some l, { rb with data := r })

/-- Modelled from the spec: a success or error pattern of the Command
Engine (missing `sim800l.c`): decides whether a line matches. -/
abbrev Pattern := Line → Bool

/-- The application callback type `sim800l_alarm_cb_t` (sim800l.h:60), a
function pointer, identified by its address. -/
abbrev sim800l_alarm_cb_t := Nat

/-- The application callback type `sim800l_receive_sms_callback_t`
(sim800l.h:58), a function pointer, identified by its address. -/
abbrev sim800l_receive_sms_callback_t := Nat

/-- Modelled from the spec: the Pending Command Context of the Command
Engine (missing `sim800l.c`): the expected terminal markers (success
pattern, list of error patterns), a deadline, and the accumulator of
intermediate payload lines. -/
structure PendingCommandContext where
  success : Pattern
  errors : List Pattern
  deadline : Nat
  payload : List Line

/-- Modelled from the spec: the Device Handle behind `struct
sim800l_params_t` (state kept by the missing `sim800l.c`): the transport
(`tx`, every byte written so far; `wire`, the bytes the modem delivers in
each coming polling interval), the receive buffer, the alarm-callback table
with its `SIM800L_ALARM_COUNT` slots, the SMS callback slot, the Pending
Command Context, and the record of alarm callbacks invoked. -/
structure Device where
  tx : List Byte
  wire : List (List Byte)
  rx : ReceiveBuffer
  alarm_cbs : List (Option sim800l_alarm_cb_t)
  sms_cb : Option sim800l_receive_sms_callback_t
  pending : Option PendingCommandContext
  alarm_calls : List (sim800l_alarm_cb_t × Nat)

/-- Modelled from the spec: driver initialisation (missing `sim800l.c`):
nothing sent, empty receive buffer, no alarm armed, no command pending. -/
def Device.init (capacity : Nat) (wire : List (List Byte)) : Device :=
  { tx := [], wire := wire, rx := ReceiveBuffer.init capacity,
    alarm_cbs := List.replicate SIM800L_ALARM_COUNT none, sms_cb := none,
    pending := none, alarm_calls := [] }

/-- Modelled from the spec: `void sim800l_receive_cb(char c)` (declared at
sim800l.h:62, body missing): the interrupt-side entry, pushing the byte into
the receive buffer. -/
def sim800l_receive_cb (d : Device) (c : Byte) : Device :=
  { d with rx := push_byte d.rx c }

/-- Modelled from the spec: the transport operation `send(bytes)`. -/
def transport_send (d : Device) (bytes : List Byte) : Device :=
  { d with tx := d.tx ++ bytes }

/-- The receive interrupt fires once for each of the bytes, in order. -/
def receive_bytes (d : Device) (bs : List Byte) : Device :=
  bs.foldl sim800l_receive_cb d

/-- Modelled from the spec: the transport operation `on_byte(byte)` over
time (the serial layer is not part of the sources): one polling interval
passes, and the receive interrupt fires for each byte the modem delivers in
that interval. -/
def deliver (d : Device) : Device :=
  match d.wire with
  | [] => d
  | chunk :: rest => receive_bytes { d with wire := rest } chunk

/-- Modelled from the spec: the Notification Dispatcher as the Command
Engine sees it (missing `sim800l.c`): `classify_and_dispatch(line) -> bool`,
true if the line was an unsolicited notification and was consumed.  A
dispatcher may send on the transport (the nested read-by-index) but never
takes back what was sent. -/
structure Dispatcher where
  classify_and_dispatch : Line → Device → Bool × Device
  tx_grows : ∀ (l : Line) (d : Device), d.tx <+: (classify_and_dispatch l d).2.tx

/-- Modelled from the spec: the alarm-triggered family of the Notification
Dispatcher (missing `sim800l.c`): the alarm index carried by the line is
looked up in the Alarm Slot table and the armed callback is invoked with it;
an out-of-range or unarmed index is dropped.  `recognise` reads the alarm
index off a notification line. -/
def alarm_dispatch (recognise : Line → Option Nat) (l : Line) (d : Device) :
    Bool × Device :=
  match recognise l with
  | none => (false, d)
  | some idx =>
      if 1 ≤ idx ∧ idx ≤ SIM800L_ALARM_COUNT then
        match d.alarm_cbs.getD (idx - 1) none with
        | some cb => (true, { d with alarm_calls := d.alarm_calls ++ [(cb, idx)] })
        | none => (true, d)
      else (true, d)

/-- Modelled from the spec: the alarm family as a dispatcher (missing
`sim800l.c`); it sends nothing. -/
def alarm_dispatcher (recognise : Line → Option Nat) : Dispatcher where
  classify_and_dispatch := alarm_dispatch recognise
  tx_grows := by
    intro l d
    unfold alarm_dispatch
    split
    · exact ⟨[], List.append_nil _⟩
    · split
      · split <;> exact ⟨[], List.append_nil _⟩
      · exact ⟨[], List.append_nil _⟩

/-- Modelled from the spec: failures of the Command Engine (missing
`sim800l.c`): no terminal match within the deadline, or a terminal error
line from the modem. -/
inductive CommandError where
  | Timeout
  | ModemRejected (line : Line)
deriving DecidableEq, Repr

/-- Modelled from the spec: the result type of `execute` (missing
`sim800l.c`), `Result<Vec<Line>, CommandError>`: the payload lines, or a
failure. -/
abbrev CommandResult := Except CommandError (List Line)

/-- Modelled from the spec: what the Command Engine does with one line
(missing `sim800l.c`): an empty line or an echo of the command is discarded;
a line matching the success pattern completes with the collected payload; a
line matching an error pattern completes with that failure; a line the
Notification Dispatcher consumes does not count; any other line is payload. -/
def handle_line (disp : Dispatcher) (command_text : Line)
    (ctx : PendingCommandContext) (d : Device) (line : Line) :
    Option CommandResult × PendingCommandContext × Device :=
  if line = [] ∨ line = command_text then (none, ctx, d)
  else if ctx.success line then (some (Except.ok ctx.payload), ctx, d)
  else if ctx.errors.any (fun p => p line) then
    (some (Except.error (CommandError.ModemRejected line)), ctx, d)
  else
    match disp.classify_and_dispatch line d with
    | (true, d1) => (none, ctx, d1)
    | (false, d1) =>
        let ctx1 := { ctx with payload := ctx.payload ++ [line] }
        (none, ctx1, { d1 with pending := some ctx1 })

/-- Modelled from the spec: the Command Engine (missing `sim800l.c`) takes
the lines the framer has ready, one `next_line` call after the other, until
a terminal line or until no complete line is left.  The first argument
bounds the number of calls; the wait loop passes the number of buffered
bytes, and every buffered line takes at least two of them. -/
def poll_lines (disp : Dispatcher) (command_text : Line) :
    Nat → PendingCommandContext → Device →
    Option CommandResult × PendingCommandContext × Device
  | 0, ctx, d => (none, ctx, d)
  | n + 1, ctx, d =>
      match next_line d.rx with
      | (none, _) => (none, ctx, d)
      | (some line, rx1) =>
          match handle_line disp command_text ctx { d with rx := rx1 } line with
          | (some r, ctx1, d1) => (some r, ctx1, d1)
          | (none, ctx1, d1) => poll_lines disp command_text n ctx1 d1

/-- Modelled from the spec: the wait loop of the Command Engine (missing
`sim800l.c`), bounded by the timeout counted in polling intervals from send
time: the lines received so far are handled; without a terminal match the
loop waits one more interval, and gives up with a timeout once the deadline
has passed. -/
def wait_response (disp : Dispatcher) (command_text : Line) :
    Nat → PendingCommandContext → Device → CommandResult × Device
  | 0, ctx, d =>
      match poll_lines disp command_text d.rx.data.length ctx d with
      | (some r, _, d1) => (r, d1)
      | (none, _, d1) => (Except.error CommandError.Timeout, d1)
  | t + 1, ctx, d =>
      match poll_lines disp command_text d.rx.data.length ctx d with
      | (some r, _, d1) => (r, d1)
      | (none, ctx1, d1) => wait_response disp command_text t ctx1 (deliver d1)

/-- Modelled from the spec: `execute(command_text, success_pattern,
error_patterns, timeout)` of the Command Engine (missing `sim800l.c`):
installs the Pending Command Context, writes the command plus line
terminator to the transport, waits for the outcome, and clears the Pending
Command Context on return. -/
def execute (disp : Dispatcher) (d : Device) (command_text : Line)
    (success_pattern : Pattern) (error_patterns : List Pattern) (timeout : Nat) :
    CommandResult × Device :=
  let ctx : PendingCommandContext :=
    { success := success_pattern, errors := error_patterns,
      deadline := timeout, payload := [] }
  let d1 := transport_send { d with pending := some ctx } (command_text ++ CRLF)
  let r := wait_response disp command_text timeout ctx d1
  (r.1, { r.2 with pending := none })

/-- The command completed successfully. -/
def CommandResult.is_success : CommandResult → Bool
  | Except.ok _ => true
  | Except.error _ => false

/-- The command completed with a protocol error reported by the modem. -/
def CommandResult.is_protocol_error : CommandResult → Bool
  | Except.error (CommandError.ModemRejected _) => true
  | _ => false

/-- The command timed out. -/
def CommandResult.is_timeout : CommandResult → Bool
  | Except.error CommandError.Timeout => true
  | _ => false

/-- Modelled from the spec: the fixed command vocabulary of the Feature
Modules (texts defined in the missing `sim800l.c`): the terminal patterns
and timeout used for every command, and the request formatting of the alarm
and PIN commands (the PIN command is `unlock_sim_head`, the PIN digits,
`unlock_sim_tail`). -/
structure Vocabulary where
  success_pattern : Pattern
  error_patterns : List Pattern
  timeout : Nat
  delete_alarm_cmd : uint8_t → Line
  set_alarm_cmd : uint8_t → uint8_t → uint8_t → uint8_t → Line
  unlock_sim_head : Line
  unlock_sim_tail : Line

/-- Modelled from the spec: `sim800l_delete_alarm` (declared at
sim800l.h:208, body missing): an index outside 1..SIM800L_ALARM_COUNT is
rejected before any transport write; otherwise the delete command is
executed and, on success, the slot is cleared. -/
def sim800l_delete_alarm (v : Vocabulary) (disp : Dispatcher) (params : Device)
    (alarm_index : uint8_t) : Int × Device :=
  if alarm_index.val < 1 ∨ alarm_index.val > SIM800L_ALARM_COUNT then (-1, params)
  else
    match execute disp params (v.delete_alarm_cmd alarm_index)
        v.success_pattern v.error_patterns v.timeout with
    | (Except.ok _, d) =>
        (0, { d with alarm_cbs := d.alarm_cbs.set (alarm_index.val - 1) none })
    | (Except.error _, d) => (-1, d)

/-- Modelled from the spec: `sim800l_set_alarm` (declared at
sim800l.h:226-228, body missing): an index outside 1..SIM800L_ALARM_COUNT is
rejected before any transport write; otherwise the set command is executed
(an already-armed slot is not checked locally, the modem rejects it) and, on
success, the callback is stored in the slot. -/
def sim800l_set_alarm (v : Vocabulary) (disp : Dispatcher) (params : Device)
    (alarm_index hour min sec : uint8_t) (cb : sim800l_alarm_cb_t) : Int × Device :=
  if alarm_index.val < 1 ∨ alarm_index.val > SIM800L_ALARM_COUNT then (-1, params)
  else
    match execute disp params (v.set_alarm_cmd alarm_index hour min sec)
        v.success_pattern v.error_patterns v.timeout with
    | (Except.ok _, d) =>
        (0, { d with alarm_cbs := d.alarm_cbs.set (alarm_index.val - 1) (some cb) })
    | (Except.error _, d) => (-1, d)

/-- Modelled from the spec: decimal formatting used for the PIN (missing
`sim800l.c`): the character of the lowest decimal digit of `n`. -/
def digit_char (n : Nat) : Byte := ⟨48 + n % 10, by omega⟩

/-- Modelled from the spec: formatting of the PIN in the unlock command
(missing `sim800l.c`): four decimal digits, zero-padded on the left. -/
def pin_digits (pin : Nat) : List Byte :=
  [digit_char (pin / 1000), digit_char (pin / 100), digit_char (pin / 10), digit_char pin]

/-- The number a string of decimal digit characters denotes. -/
def digits_value (ds : List Byte) : Nat :=
  ds.foldl (fun acc b => acc * 10 + (b.val - 48)) 0

/-- Modelled from the spec: `sim800l_unlock_sim` (declared at sim800l.h:90,
body missing): a PIN above 9999 is rejected before any transport write;
otherwise the PIN command carrying the zero-padded PIN is executed. -/
def sim800l_unlock_sim (v : Vocabulary) (disp : Dispatcher) (params : Device)
    (pin : uint32_t) : Int × Device :=
  if pin.val > 9999 then (-1, params)
  else
    match execute disp params (v.unlock_sim_head ++ pin_digits pin.val ++ v.unlock_sim_tail)
        v.success_pattern v.error_patterns v.timeout with
    | (Except.ok _, d) => (0, d)
    | (Except.error _, d) => (-1, d)

/-! ## Concrete inputs

A vocabulary, a notification reader and devices on which the definitions
above are evaluated.  The command texts are those of the SIM800 series AT
command set.
-/

/-- The bytes of an ASCII text. -/
def ascii (s : String) : List Byte :=
  s.toList.map (fun c => ⟨c.toNat % 256, Nat.mod_lt _ (by decide)⟩)

/-- A vocabulary for evaluation: success token `OK`, error tokens `ERROR`
and `+CME ERROR:` with a reason code, three polling intervals of timeout. -/
def sample_vocabulary : Vocabulary :=
  { success_pattern := fun l => l == ascii "OK",
    error_patterns :=
      [fun l => l == ascii "ERROR", fun l => (ascii "+CME ERROR:").isPrefixOf l],
    timeout := 3,
    delete_alarm_cmd := fun i => ascii "AT+CALD=" ++ [digit_char i.val],
    set_alarm_cmd := fun i h m s =>
      ascii "AT+CALA=" ++
        [digit_char (h.val / 16), digit_char (h.val % 16),
         digit_char (m.val / 16), digit_char (m.val % 16),
         digit_char (s.val / 16), digit_char (s.val % 16), 44, digit_char i.val],
    unlock_sim_head := ascii "AT+CPIN=",
    unlock_sim_tail := [] }

/-- Reads the alarm index off a line of the shape `+A:` followed by one
digit. -/
def sample_alarm_notification (l : Line) : Option Nat :=
  match l with
  | [43, 65, 58, c] => some (c.val - 48)
  | _ => none

/-- The dispatcher used for evaluation. -/
def sample_dispatcher : Dispatcher := alarm_dispatcher sample_alarm_notification

/-- A device with a 32-byte receive buffer and alarm 2 armed with callback 7,
whose modem delivers the given bytes, one list per polling interval. -/
def sample_device (wire : List (List Byte)) : Device :=
  { Device.init 32 wire with alarm_cbs := [none, some 7, none, none, none] }

/-! ## Lemmas -/

/-- Handling a line never takes back what was sent. -/
theorem handle_line_tx (disp : Dispatcher) (cmd : Line) (ctx : PendingCommandContext)
    (d : Device) (line : Line) :
    d.tx <+: (handle_line disp cmd ctx d line).2.2.tx := by
  unfold handle_line
  split
  · exact ⟨[], List.append_nil _⟩
  · split
    · exact ⟨[], List.append_nil _⟩
    · split
      · exact ⟨[], List.append_nil _⟩
      · have h := disp.tx_grows line d
        split
        · next d1 heq => rw [heq] at h; exact h
        · next d1 heq => rw [heq] at h; exact h

/-- Polling the framer never takes back what was sent. -/
theorem poll_lines_tx (disp : Dispatcher) (cmd : Line) (n : Nat) :
    ∀ (ctx : PendingCommandContext) (d : Device),
      d.tx <+: (poll_lines disp cmd n ctx d).2.2.tx := by
  induction n with
  | zero => intro ctx d; exact ⟨[], List.append_nil _⟩
  | succ k ih =>
    intro ctx d
    rw [poll_lines]
    split
    · exact ⟨[], List.append_nil _⟩
    · next line rx1 _ =>
      have h := handle_line_tx disp cmd ctx { d with rx := rx1 } line
      split
      · next r ctx1 d1 heq => rw [heq] at h; exact h
      · next ctx1 d1 heq =>
        rw [heq] at h
        exact h.trans (ih ctx1 d1)

/-- The receive interrupt does not touch the transport output. -/
theorem receive_bytes_tx (chunk : List Byte) (d : Device) :
    (receive_bytes d chunk).tx = d.tx := by
  unfold receive_bytes
  induction chunk generalizing d with
  | nil => rfl
  | cons b t ih => rw [List.foldl_cons, ih]; rfl

/-- A polling interval does not touch the transport output. -/
theorem deliver_tx (d : Device) : (deliver d).tx = d.tx := by
  unfold deliver
  split
  · rfl
  · rw [receive_bytes_tx]

/-- Waiting for the outcome never takes back what was sent. -/
theorem wait_response_tx (disp : Dispatcher) (cmd : Line) (t : Nat) :
    ∀ (ctx : PendingCommandContext) (d : Device),
      d.tx <+: (wait_response disp cmd t ctx d).2.tx := by
  induction t with
  | zero =>
    intro ctx d
    rw [wait_response]
    have h := poll_lines_tx disp cmd d.rx.data.length ctx d
    split
    · next r c d1 heq => rw [heq] at h; exact h
    · next c d1 heq => rw [heq] at h; exact h
  | succ k ih =>
    intro ctx d
    rw [wait_response]
    have h := poll_lines_tx disp cmd d.rx.data.length ctx d
    split
    · next r c d1 heq => rw [heq] at h; exact h
    · next c d1 heq =>
      rw [heq] at h
      have h2 := ih c (deliver d1)
      rw [deliver_tx] at h2
      exact h.trans h2

/-- After `execute` the transport output starts with what was there before, then the command and its terminator. -/
theorem execute_tx (disp : Dispatcher) (d : Device) (cmd : Line) (s : Pattern)
    (e : List Pattern) (t : Nat) :
    d.tx ++ (cmd ++ CRLF) <+: (execute disp d cmd s e t).2.tx := by
  exact wait_response_tx disp cmd t
    { success := s, errors := e, deadline := t, payload := [] }
    (transport_send
      { d with pending := some { success := s, errors := e, deadline := t, payload := [] } }
      (cmd ++ CRLF))

/-- After `execute` no command context is pending. -/
theorem execute_pending (disp : Dispatcher) (d : Device) (cmd : Line) (s : Pattern)
    (e : List Pattern) (t : Nat) :
    (execute disp d cmd s e t).2.pending = none := rfl


/-- The four digits of a PIN up to 9999 denote the PIN. -/
theorem pin_digits_value (pin : Nat) (h : pin ≤ 9999) : digits_value (pin_digits pin) = pin := by
  simp [digits_value, pin_digits, digit_char]
  omega

/-- The PIN digits are decimal digit characters. -/
theorem pin_digits_range (pin : Nat) : ∀ b ∈ pin_digits pin, 48 ≤ b.val ∧ b.val ≤ 57 := by
  intro b hb
  simp [pin_digits, digit_char] at hb
  rcases hb with h | h | h | h <;> (rw [h]; simp; omega)

/-! ## The claims -/

set_option maxRecDepth 100000

/-- C1: the alarm table has exactly 5 slots.  `SIM800L_ALARM_COUNT` equals 5,
an 8-bit alarm index is in the documented range exactly when it lies between
1 and `SIM800L_ALARM_COUNT`, the indices in range are exactly 1, 2, 3, 4, 5
(there are `SIM800L_ALARM_COUNT` of them), and 0 and 6 are out of range. -/
theorem alarm_index_range_is_one_to_alarm_count :
    SIM800L_ALARM_COUNT = 5 ∧
    (∀ i : uint8_t, alarm_index_in_range i = true ↔
        (1 ≤ i.val ∧ i.val ≤ SIM800L_ALARM_COUNT)) ∧
    all_uint8.filter alarm_index_in_range = [1, 2, 3, 4, 5] ∧
    (all_uint8.filter alarm_index_in_range).length = SIM800L_ALARM_COUNT ∧
    alarm_index_in_range 0 = false ∧ alarm_index_in_range 6 = false := by
  refine ⟨rfl, ?_, by decide, by decide, by decide, by decide⟩
  intro i
  simp [alarm_index_in_range, SIM800L_ALARM_COUNT]

/-- C2: layout of the SMS record.  The timestamp is 8 bytes at offset 0, the
storage index one byte at offset 8, the sender field 22 bytes at offset 9;
the packed header is exactly 31 bytes, the sum of its members, so it has no
padding (without the packed attribute it would be padded to 32); the text
length is one byte at offset 31, the text field 256 bytes at offset 32, and
the whole record is 288 bytes. -/
theorem sms_record_layout :
    sms_header_members.map Member.size = [8, 1, 22] ∧
    sms_header_field_offset "time" = some 0 ∧
    sms_header_field_offset "index" = some 8 ∧
    sms_header_field_offset "sender" = some 9 ∧
    struct_size true sms_header_members = 31 ∧
    struct_size true sms_header_members = 8 + 1 + 22 ∧
    struct_size false sms_header_members = 32 ∧
    sms_members.map Member.size = [31, 1, 256] ∧
    offset_of false sms_members "header" = some 0 ∧
    offset_of false sms_members "text_length" = some 31 ∧
    offset_of false sms_members "text" = some 32 ∧
    struct_size false sms_members = 288 := by
  decide

/-- C3: for every SMS record value, `text_length` is at most 255, which is
below the 256 bytes of `text`, so every index up to and including
`text_length` is inside `text`; the 22-byte `sender` holds 21 characters and
a terminator; and the storage index takes exactly the values 0..255. -/
theorem sms_record_length_tag_inside_buffer (r : sim800l_sms_t) :
    r.text_length.val ≤ 255 ∧ 255 < TEXT_SIZE ∧ r.text.val.length = TEXT_SIZE ∧
    (∀ i : Nat, i ≤ r.text_length.val → i < r.text.val.length) ∧
    r.header.sender.val.length = SENDER_SIZE ∧
    21 + 1 ≤ r.header.sender.val.length ∧
    r.header.index.val ≤ 255 ∧
    (∀ n : Nat, n ≤ 255 → ∃ r2 : sim800l_sms_t, r2.header.index.val = n) := by
  have h1 := r.text_length.isLt
  have h2 := r.text.property
  have h3 := r.header.sender.property
  have h4 := r.header.index.isLt
  refine ⟨by omega, by decide, h2, ?_, h3, ?_, by omega, ?_⟩
  · intro i hi; rw [h2]; omega
  · rw [h3]
  · intro n hn
    exact ⟨{ r with header := { r.header with index := ⟨n, by omega⟩ } }, rfl⟩

/-- C4: `sim800l_set_alarm` and `sim800l_delete_alarm` return -1 for every
alarm index outside 1..5, leaving the transport output and the
alarm-callback table as they were; for every index in 1..5 the command and
its line terminator are written to the transport. -/
theorem alarm_index_checked_before_transport (v : Vocabulary) (disp : Dispatcher)
    (params : Device) (alarm_index hour min sec : uint8_t) (cb : sim800l_alarm_cb_t) :
    (¬ (1 ≤ alarm_index.val ∧ alarm_index.val ≤ 5) →
      (sim800l_set_alarm v disp params alarm_index hour min sec cb).1 = -1 ∧
      (sim800l_set_alarm v disp params alarm_index hour min sec cb).2.tx = params.tx ∧
      (sim800l_set_alarm v disp params alarm_index hour min sec cb).2.alarm_cbs
        = params.alarm_cbs ∧
      (sim800l_delete_alarm v disp params alarm_index).1 = -1 ∧
      (sim800l_delete_alarm v disp params alarm_index).2.tx = params.tx ∧
      (sim800l_delete_alarm v disp params alarm_index).2.alarm_cbs = params.alarm_cbs) ∧
    ((1 ≤ alarm_index.val ∧ alarm_index.val ≤ 5) →
      params.tx ++ (v.set_alarm_cmd alarm_index hour min sec ++ CRLF)
        <+: (sim800l_set_alarm v disp params alarm_index hour min sec cb).2.tx ∧
      params.tx ++ (v.delete_alarm_cmd alarm_index ++ CRLF)
        <+: (sim800l_delete_alarm v disp params alarm_index).2.tx) := by
  constructor
  · intro h
    have hc : alarm_index.val < 1 ∨ alarm_index.val > SIM800L_ALARM_COUNT := by
      unfold SIM800L_ALARM_COUNT; omega
    unfold sim800l_set_alarm sim800l_delete_alarm
    rw [if_pos hc, if_pos hc]
    exact ⟨rfl, rfl, rfl, rfl, rfl, rfl⟩
  · intro h
    have hc : ¬ (alarm_index.val < 1 ∨ alarm_index.val > SIM800L_ALARM_COUNT) := by
      unfold SIM800L_ALARM_COUNT; omega
    unfold sim800l_set_alarm sim800l_delete_alarm
    rw [if_neg hc, if_neg hc]
    constructor
    · have hx := execute_tx disp params (v.set_alarm_cmd alarm_index hour min sec)
        v.success_pattern v.error_patterns v.timeout
      split
      · next p d heq => rw [heq] at hx; exact hx
      · next p d heq => rw [heq] at hx; exact hx
    · have hx := execute_tx disp params (v.delete_alarm_cmd alarm_index)
        v.success_pattern v.error_patterns v.timeout
      split
      · next p d heq => rw [heq] at hx; exact hx
      · next p d heq => rw [heq] at hx; exact hx

/-- Witness for C4 on a device with alarm 2 armed whose modem answers `OK`:
indices 0 and 6 are refused with nothing sent and the table untouched;
index 2 sends `AT+CALD=2`, deletes the alarm and returns 0. -/
theorem alarm_index_checked_before_transport_witness :
    ((sim800l_set_alarm sample_vocabulary sample_dispatcher
        (sample_device [ascii "OK" ++ CRLF]) 0 18 48 0 9).1 = -1 ∧
      (sim800l_set_alarm sample_vocabulary sample_dispatcher
        (sample_device [ascii "OK" ++ CRLF]) 0 18 48 0 9).2.tx = []) ∧
    ((sim800l_delete_alarm sample_vocabulary sample_dispatcher
        (sample_device [ascii "OK" ++ CRLF]) 6).1 = -1 ∧
      (sim800l_delete_alarm sample_vocabulary sample_dispatcher
        (sample_device [ascii "OK" ++ CRLF]) 6).2.alarm_cbs
        = [none, some 7, none, none, none]) ∧
    ([] ++ (ascii "AT+CALD=2" ++ CRLF)
        <+: (sim800l_delete_alarm sample_vocabulary sample_dispatcher
              (sample_device [ascii "OK" ++ CRLF]) 2).2.tx ∧
      (sim800l_delete_alarm sample_vocabulary sample_dispatcher
          (sample_device [ascii "OK" ++ CRLF]) 2).1 = 0 ∧
      (sim800l_delete_alarm sample_vocabulary sample_dispatcher
          (sample_device [ascii "OK" ++ CRLF]) 2).2.alarm_cbs
        = [none, none, none, none, none]) :=
  ⟨⟨((alarm_index_checked_before_transport sample_vocabulary sample_dispatcher
        (sample_device [ascii "OK" ++ CRLF]) 0 18 48 0 9).1 (by decide)).1,
     ((alarm_index_checked_before_transport sample_vocabulary sample_dispatcher
        (sample_device [ascii "OK" ++ CRLF]) 0 18 48 0 9).1 (by decide)).2.1⟩,
   ⟨((alarm_index_checked_before_transport sample_vocabulary sample_dispatcher
        (sample_device [ascii "OK" ++ CRLF]) 6 0 0 0 9).1 (by decide)).2.2.2.1,
     ((alarm_index_checked_before_transport sample_vocabulary sample_dispatcher
        (sample_device [ascii "OK" ++ CRLF]) 6 0 0 0 9).1 (by decide)).2.2.2.2.2⟩,
   ⟨((alarm_index_checked_before_transport sample_vocabulary sample_dispatcher
        (sample_device [ascii "OK" ++ CRLF]) 2 0 0 0 9).2 (by decide)).2,
     by decide, by decide⟩⟩

/-- C5: for every command, success pattern, error patterns, timeout and
incoming byte stream, `execute` returns and its outcome is exactly one of
success with payload, protocol error, or timeout; the Pending Command
Context is cleared on return whichever it is. -/
theorem execute_returns_one_outcome_and_clears_context (disp : Dispatcher) (d : Device)
    (command_text : Line) (success_pattern : Pattern) (error_patterns : List Pattern)
    (timeout : Nat) :
    (execute disp d command_text success_pattern error_patterns timeout).2.pending = none ∧
    ((∃ payload : List Line,
        (execute disp d command_text success_pattern error_patterns timeout).1
          = Except.ok payload) ∨
     (∃ line : Line,
        (execute disp d command_text success_pattern error_patterns timeout).1
          = Except.error (CommandError.ModemRejected line)) ∨
     (execute disp d command_text success_pattern error_patterns timeout).1
          = Except.error CommandError.Timeout) ∧
    ((execute disp d command_text success_pattern error_patterns timeout).1.is_success
      && !(execute disp d command_text success_pattern error_patterns timeout).1.is_protocol_error
      && !(execute disp d command_text success_pattern error_patterns timeout).1.is_timeout
     || !(execute disp d command_text success_pattern error_patterns timeout).1.is_success
      && (execute disp d command_text success_pattern error_patterns timeout).1.is_protocol_error
      && !(execute disp d command_text success_pattern error_patterns timeout).1.is_timeout
     || !(execute disp d command_text success_pattern error_patterns timeout).1.is_success
      && !(execute disp d command_text success_pattern error_patterns timeout).1.is_protocol_error
      && (execute disp d command_text success_pattern error_patterns timeout).1.is_timeout)
      = true := by
  refine ⟨rfl, ?_, ?_⟩
  · rcases (execute disp d command_text success_pattern error_patterns timeout).1 with e | p
    · cases e with
      | Timeout => exact Or.inr (Or.inr rfl)
      | ModemRejected line => exact Or.inr (Or.inl ⟨line, rfl⟩)
    · exact Or.inl ⟨p, rfl⟩
  · rcases (execute disp d command_text success_pattern error_patterns timeout).1 with e | p
    · cases e <;> rfl
    · rfl

/-- Witness for C5: each of the three outcomes occurs, and the context is
cleared in each.  The modem echoes the command, reports alarm 2 and one
payload line before `OK`; or answers `ERROR`; or stays silent. -/
theorem execute_returns_one_outcome_and_clears_context_witness :
    ((execute sample_dispatcher
        (sample_device [ascii "AT+X" ++ CRLF, ascii "+A:2" ++ CRLF ++ ascii "data" ++ CRLF,
          ascii "OK" ++ CRLF])
        (ascii "AT+X") sample_vocabulary.success_pattern sample_vocabulary.error_patterns 3).1
        = Except.ok [ascii "data"] ∧
      (execute sample_dispatcher
        (sample_device [ascii "AT+X" ++ CRLF, ascii "+A:2" ++ CRLF ++ ascii "data" ++ CRLF,
          ascii "OK" ++ CRLF])
        (ascii "AT+X") sample_vocabulary.success_pattern sample_vocabulary.error_patterns 3
        ).2.pending = none) ∧
    ((execute sample_dispatcher (sample_device [ascii "ERROR" ++ CRLF])
        (ascii "AT+X") sample_vocabulary.success_pattern sample_vocabulary.error_patterns 3).1
        = Except.error (CommandError.ModemRejected (ascii "ERROR")) ∧
      (execute sample_dispatcher (sample_device [ascii "ERROR" ++ CRLF])
        (ascii "AT+X") sample_vocabulary.success_pattern sample_vocabulary.error_patterns 3
        ).2.pending = none) ∧
    ((execute sample_dispatcher (sample_device [])
        (ascii "AT+X") sample_vocabulary.success_pattern sample_vocabulary.error_patterns 3).1
        = Except.error CommandError.Timeout ∧
      (execute sample_dispatcher (sample_device [])
        (ascii "AT+X") sample_vocabulary.success_pattern sample_vocabulary.error_patterns 3
        ).2.pending = none) :=
  ⟨⟨by rfl,
    (execute_returns_one_outcome_and_clears_context sample_dispatcher
      (sample_device [ascii "AT+X" ++ CRLF, ascii "+A:2" ++ CRLF ++ ascii "data" ++ CRLF,
        ascii "OK" ++ CRLF])
      (ascii "AT+X") sample_vocabulary.success_pattern sample_vocabulary.error_patterns 3).1⟩,
   ⟨by rfl,
    (execute_returns_one_outcome_and_clears_context sample_dispatcher
      (sample_device [ascii "ERROR" ++ CRLF])
      (ascii "AT+X") sample_vocabulary.success_pattern sample_vocabulary.error_patterns 3).1⟩,
   ⟨by rfl,
    (execute_returns_one_outcome_and_clears_context sample_dispatcher (sample_device [])
      (ascii "AT+X") sample_vocabulary.success_pattern sample_vocabulary.error_patterns 3).1⟩⟩

/-- C9: `sim800l_unlock_sim` returns -1 for every PIN above 9999 and sends
nothing; for every PIN in 0..9999 the PIN command is written to the
transport with the PIN as exactly four decimal digit characters whose value
is the PIN, so short PINs are zero-padded on the left. -/
theorem unlock_sim_pin_checked_and_zero_padded (v : Vocabulary) (disp : Dispatcher)
    (params : Device) (pin : uint32_t) :
    (9999 < pin.val →
      (sim800l_unlock_sim v disp params pin).1 = -1 ∧
      (sim800l_unlock_sim v disp params pin).2.tx = params.tx) ∧
    (pin.val ≤ 9999 →
      params.tx ++ (v.unlock_sim_head ++ pin_digits pin.val ++ v.unlock_sim_tail ++ CRLF)
        <+: (sim800l_unlock_sim v disp params pin).2.tx ∧
      (pin_digits pin.val).length = 4 ∧
      (∀ b ∈ pin_digits pin.val, 48 ≤ b.val ∧ b.val ≤ 57) ∧
      digits_value (pin_digits pin.val) = pin.val) := by
  constructor
  · intro h
    unfold sim800l_unlock_sim
    rw [if_pos h]
    exact ⟨rfl, rfl⟩
  · intro h
    refine ⟨?_, rfl, pin_digits_range pin.val, pin_digits_value pin.val h⟩
    unfold sim800l_unlock_sim
    rw [if_neg (by omega)]
    have hx := execute_tx disp params
      (v.unlock_sim_head ++ pin_digits pin.val ++ v.unlock_sim_tail)
      v.success_pattern v.error_patterns v.timeout
    split
    · next p d heq => rw [heq] at hx; exact hx
    · next p d heq => rw [heq] at hx; exact hx

/-- Witness for C9: PIN 10000 is refused with nothing sent; PIN 42 is sent
as `AT+CPIN=0042`. -/
theorem unlock_sim_pin_checked_and_zero_padded_witness :
    ((sim800l_unlock_sim sample_vocabulary sample_dispatcher
        (sample_device [ascii "OK" ++ CRLF]) 10000).1 = -1 ∧
      (sim800l_unlock_sim sample_vocabulary sample_dispatcher
        (sample_device [ascii "OK" ++ CRLF]) 10000).2.tx = []) ∧
    ([] ++ (ascii "AT+CPIN=" ++ ascii "0042" ++ [] ++ CRLF)
        <+: (sim800l_unlock_sim sample_vocabulary sample_dispatcher
              (sample_device [ascii "OK" ++ CRLF]) 42).2.tx ∧
      (sim800l_unlock_sim sample_vocabulary sample_dispatcher
        (sample_device [ascii "OK" ++ CRLF]) 42).1 = 0 ∧
      digits_value (ascii "0042") = 42) :=
  ⟨(unlock_sim_pin_checked_and_zero_padded sample_vocabulary sample_dispatcher
      (sample_device [ascii "OK" ++ CRLF]) 10000).1 (by decide),
   ⟨((unlock_sim_pin_checked_and_zero_padded sample_vocabulary sample_dispatcher
      (sample_device [ascii "OK" ++ CRLF]) 42).2 (by decide)).1,
    by decide, by decide⟩⟩

end Sim800l
